import Mathlib

/-!
Verification development for the `cursor-enterprise-stats` editor extension.

This file shallowly embeds the credential-recovery and adaptive-refresh
pipeline of the extension:

* `src/services/database.ts` (and its refactored twin in the repository):
  JWT payload decoding (`decodeJwtPayload`), session-credential derivation
  (`processJwtToken`, also inlined in `getCursorTokenFromDB`), the
  file-size-based extraction-strategy branch (`extractRawToken`), and the
  database-path resolution (`getCursorDBPath`, `getUserDirPath`).
* `src/services/api.ts`: the response data model and the pure helpers
  (`calculateIndividualContribution`).
* `src/extension.ts`: the refresh orchestrator (`refreshStats`,
  `startFastRetry`, `stopFastRetry`, `startRefreshInterval`) as a pure
  step function over an explicit state record, with the results of the
  awaited I/O actions supplied as an environment record and the calls the
  code emits (renderer callbacks, network fetches) collected as an event
  list.

JavaScript numbers are modelled as `Int`/`Nat` where the code only ever
holds integers (byte sizes, millisecond timestamps, cents, ids) and as `ℚ`
where genuine division occurs; JavaScript `undefined`/`null` is modelled
as `Option`; thrown exceptions are modelled with `Except` (a `try/catch`
that converts every exception into `undefined` therefore yields a plain
`Option`-valued function).
-/

/-! ### Base64 decoding (Node `Buffer.from(s, 'base64')`)

Node's base64 decoder never throws: characters outside the base64
alphabet (including padding handled positionally) are skipped, and a
trailing group of 2 or 3 sextets decodes to 1 or 2 bytes. -/

/-- Value of a character in the standard base64 alphabet, `none` for any
other character (which Node's decoder skips). -/
def base64CharValue (c : Char) : Option Nat :=
  let n := c.toNat
  if 65 ≤ n ∧ n ≤ 90 then some (n - 65)
  else if 97 ≤ n ∧ n ≤ 122 then some (n - 97 + 26)
  else if 48 ≤ n ∧ n ≤ 57 then some (n - 48 + 52)
  else if n = 43 then some 62
  else if n = 47 then some 63
  else none

/-- Pack a list of 6-bit values into 8-bit bytes, dropping the final
incomplete byte exactly as Node's base64 decoder does. -/
def sextetsToBytes : List Nat → List Nat
  | a :: b :: c :: d :: rest =>
      (a * 4 + b / 16) :: ((b % 16) * 16 + c / 4) :: ((c % 4) * 64 + d)
        :: sextetsToBytes rest
  | [a, b] => [a * 4 + b / 16]
  | [a, b, c] => [a * 4 + b / 16, (b % 16) * 16 + c / 4]
  | _ => []

/-- `Buffer.from(s, 'base64')` as a byte list. -/
def base64DecodeBytes (s : String) : List Nat :=
  sextetsToBytes (s.data.filterMap base64CharValue)

/-! ### UTF-8 decoding (Node `buffer.toString('utf8')`)

Total: malformed sequences decode to U+FFFD rather than failing. -/

/-- Is `b` a UTF-8 continuation byte `10xxxxxx`? -/
def isCont (b : Nat) : Bool := 128 ≤ b ∧ b ≤ 191

/-- Decode a byte list as UTF-8, emitting U+FFFD for malformed sequences
(Node's `toString('utf8')` behaviour). Fuel-based recursion: `fuel` is at
least the list length, and every step consumes at least one byte. -/
def utf8DecodeAux : Nat → List Nat → List Char
  | _, [] => []
  | 0, _ => []
  | fuel + 1, b :: rest =>
    if b < 128 then Char.ofNat b :: utf8DecodeAux fuel rest
    else if 194 ≤ b ∧ b ≤ 223 then
      match rest with
      | b2 :: rest2 =>
        if isCont b2 then
          Char.ofNat ((b - 192) * 64 + (b2 - 128)) :: utf8DecodeAux fuel rest2
        else Char.ofNat 0xFFFD :: utf8DecodeAux fuel rest
      | [] => [Char.ofNat 0xFFFD]
    else if 224 ≤ b ∧ b ≤ 239 then
      match rest with
      | b2 :: b3 :: rest3 =>
        if isCont b2 ∧ isCont b3 then
          let cp := (b - 224) * 4096 + (b2 - 128) * 64 + (b3 - 128)
          if 2048 ≤ cp ∧ ¬(55296 ≤ cp ∧ cp ≤ 57343) then
            Char.ofNat cp :: utf8DecodeAux fuel rest3
          else Char.ofNat 0xFFFD :: utf8DecodeAux fuel rest3
        else Char.ofNat 0xFFFD :: utf8DecodeAux fuel rest
      | _ => [Char.ofNat 0xFFFD]
    else if 240 ≤ b ∧ b ≤ 244 then
      match rest with
      | b2 :: b3 :: b4 :: rest4 =>
        if isCont b2 ∧ isCont b3 ∧ isCont b4 then
          let cp := (b - 240) * 262144 + (b2 - 128) * 4096 + (b3 - 128) * 64 + (b4 - 128)
          if 65536 ≤ cp ∧ cp ≤ 1114111 then
            Char.ofNat cp :: utf8DecodeAux fuel rest4
          else Char.ofNat 0xFFFD :: utf8DecodeAux fuel rest4
        else Char.ofNat 0xFFFD :: utf8DecodeAux fuel rest
      | _ => [Char.ofNat 0xFFFD]
    else Char.ofNat 0xFFFD :: utf8DecodeAux fuel rest

/-- `Buffer.from(..).toString('utf8')`. -/
def bufferToStringUtf8 (bytes : List Nat) : String :=
  ⟨utf8DecodeAux bytes.length bytes⟩

/-! ### JSON values and `JSON.parse`

`JSON.parse` is modelled by a recursive-descent parser over the character
list; a parse failure (`none`) corresponds to the exception that
`decodeJwtPayload` catches. JavaScript numbers are modelled as `ℚ`. -/

/-- A parsed JSON value (JavaScript numbers modelled as `ℚ`). -/
inductive Json where
  | null : Json
  | bool : Bool → Json
  | num : ℚ → Json
  | str : String → Json
  | arr : List Json → Json
  | obj : List (String × Json) → Json

/-- Skip JSON whitespace (space, tab, newline, carriage return). -/
def skipWs : List Char → List Char
  | c :: rest =>
    if c = ' ' ∨ c = '\t' ∨ c = '\n' ∨ c = '\r' then skipWs rest else c :: rest
  | [] => []

/-- Hexadecimal digit value. -/
def hexVal (c : Char) : Option Nat :=
  let n := c.toNat
  if 48 ≤ n ∧ n ≤ 57 then some (n - 48)
  else if 65 ≤ n ∧ n ≤ 70 then some (n - 65 + 10)
  else if 97 ≤ n ∧ n ≤ 102 then some (n - 97 + 10)
  else none

/-- Parse the body of a JSON string literal (the opening quote already
consumed), returning the string and the remaining input. -/
def parseStringBody : Nat → List Char → List Char → Option (String × List Char)
  | 0, _, _ => none
  | _, [], _ => none
  | fuel + 1, c :: rest, acc =>
    if c = '"' then some (⟨acc.reverse⟩, rest)
    else if c = '\\' then
      match rest with
      | [] => none
      | e :: rest2 =>
        if e = '"' then parseStringBody fuel rest2 ('"' :: acc)
        else if e = '\\' then parseStringBody fuel rest2 ('\\' :: acc)
        else if e = '/' then parseStringBody fuel rest2 ('/' :: acc)
        else if e = 'b' then parseStringBody fuel rest2 (Char.ofNat 8 :: acc)
        else if e = 'f' then parseStringBody fuel rest2 (Char.ofNat 12 :: acc)
        else if e = 'n' then parseStringBody fuel rest2 ('\n' :: acc)
        else if e = 'r' then parseStringBody fuel rest2 (Char.ofNat 13 :: acc)
        else if e = 't' then parseStringBody fuel rest2 ('\t' :: acc)
        else if e = 'u' then
          match rest2 with
          | h1 :: h2 :: h3 :: h4 :: rest3 =>
            match hexVal h1, hexVal h2, hexVal h3, hexVal h4 with
            | some v1, some v2, some v3, some v4 =>
              parseStringBody fuel rest3
                (Char.ofNat (v1 * 4096 + v2 * 256 + v3 * 16 + v4) :: acc)
            | _, _, _, _ => none
          | _ => none
        else none
    else if c.toNat < 32 then none
    else parseStringBody fuel rest (c :: acc)

/-- Consume a maximal run of decimal digits. -/
def parseDigits : List Char → List Nat × List Char
  | c :: rest =>
    if 48 ≤ c.toNat ∧ c.toNat ≤ 57 then
      let (ds, r) := parseDigits rest
      ((c.toNat - 48) :: ds, r)
    else ([], c :: rest)
  | [] => ([], [])

/-- Digits to a natural number. -/
def digitsToNat (ds : List Nat) : Nat :=
  ds.foldl (fun a d => a * 10 + d) 0

/-- Parse a JSON number (grammar `-? int frac? exp?`, leading zeros
rejected as `JSON.parse` does). -/
def parseNumber (cs : List Char) : Option (ℚ × List Char) :=
  let (neg, cs1) := match cs with
    | '-' :: r => (true, r)
    | _ => (false, cs)
  let (ids, cs2) := parseDigits cs1
  if ids = [] then none
  else if 1 < ids.length ∧ ids.headD 1 = 0 then none
  else
    let step2 : Option (ℚ × List Char) :=
      match cs2 with
      | '.' :: r =>
        let (fds, r2) := parseDigits r
        if fds = [] then none
        else some ((digitsToNat fds : ℚ) / ((10 : ℚ) ^ fds.length), r2)
      | _ => some (0, cs2)
    match step2 with
    | none => none
    | some (frac, cs3) =>
      let step3 : Option (Int × List Char) :=
        match cs3 with
        | c :: r =>
          if c = 'e' ∨ c = 'E' then
            let (sgn, r1) := match r with
              | '+' :: rr => ((1 : Int), rr)
              | '-' :: rr => ((-1 : Int), rr)
              | _ => ((1 : Int), r)
            let (eds, r2) := parseDigits r1
            if eds = [] then none else some (sgn * (digitsToNat eds : Int), r2)
          else some (0, c :: r)
        | [] => some (0, [])
      match step3 with
      | none => none
      | some (ex, cs4) =>
        let mag : ℚ := ((digitsToNat ids : ℚ) + frac) * (10 : ℚ) ^ ex
        some (if neg then -mag else mag, cs4)

mutual

/-- Parse one JSON value (leading whitespace allowed). -/
def parseValue : Nat → List Char → Option (Json × List Char)
  | 0, _ => none
  | fuel + 1, cs =>
    match skipWs cs with
    | [] => none
    | c :: rest =>
      if c = '{' then
        match skipWs rest with
        | '}' :: r => some (Json.obj [], r)
        | cs2 => parseObjRest fuel cs2 []
      else if c = '[' then
        match skipWs rest with
        | ']' :: r => some (Json.arr [], r)
        | cs2 => parseArrRest fuel cs2 []
      else if c = '"' then
        (parseStringBody (rest.length + 1) rest []).map fun p => (Json.str p.1, p.2)
      else
        match c :: rest with
        | 't' :: 'r' :: 'u' :: 'e' :: r => some (Json.bool true, r)
        | 'f' :: 'a' :: 'l' :: 's' :: 'e' :: r => some (Json.bool false, r)
        | 'n' :: 'u' :: 'l' :: 'l' :: r => some (Json.null, r)
        | cs3 => (parseNumber cs3).map fun p => (Json.num p.1, p.2)

/-- Parse the members of a JSON object, positioned at a key. -/
def parseObjRest : Nat → List Char → List (String × Json) →
    Option (Json × List Char)
  | 0, _, _ => none
  | fuel + 1, cs, acc =>
    match cs with
    | '"' :: rest =>
      match parseStringBody (rest.length + 1) rest [] with
      | none => none
      | some (key, r1) =>
        match skipWs r1 with
        | ':' :: r2 =>
          match parseValue fuel r2 with
          | none => none
          | some (v, r3) =>
            match skipWs r3 with
            | ',' :: r4 => parseObjRest fuel (skipWs r4) ((key, v) :: acc)
            | '}' :: r4 => some (Json.obj (((key, v) :: acc).reverse), r4)
            | _ => none
        | _ => none
    | _ => none

/-- Parse the elements of a JSON array, positioned at an element. -/
def parseArrRest : Nat → List Char → List Json → Option (Json × List Char)
  | 0, _, _ => none
  | fuel + 1, cs, acc =>
    match parseValue fuel cs with
    | none => none
    | some (v, r1) =>
      match skipWs r1 with
      | ',' :: r2 => parseArrRest fuel r2 (v :: acc)
      | ']' :: r2 => some (Json.arr ((v :: acc).reverse), r2)
      | _ => none

end

/-- `JSON.parse`: parse a complete JSON document, rejecting trailing
input; `none` models the thrown `SyntaxError`. -/
def jsonParse (s : String) : Option Json :=
  match parseValue (s.data.length + 1) s.data with
  | some (v, rest) => if skipWs rest = [] then some v else none
  | none => none

/-! ### JavaScript string primitives used by the source

The source only ever splits on single-character separators (`'.'`, `'|'`)
and replaces single characters globally (the dash and underscore regexes
in `decodeJwtPayload`), so those JS
string operations are modelled directly over the character list (the
core-library `String` operations are not definitionally reducible, which
would block concrete evaluation). -/

/-- Auxiliary for `jsSplit`: `acc` holds the current piece reversed. -/
def jsSplitAux (sep : Char) : List Char → List Char → List String
  | [], acc => [⟨acc.reverse⟩]
  | c :: rest, acc =>
    if c = sep then ⟨acc.reverse⟩ :: jsSplitAux sep rest []
    else jsSplitAux sep rest (c :: acc)

/-- JavaScript `s.split(sep)` for a single-character separator
(`"".split(sep)` is `[""]`, like in JS). -/
def jsSplit (sep : Char) (s : String) : List String :=
  jsSplitAux sep s.data []

/-- JavaScript `s.replace(/a/g, b)` for single characters. -/
def replaceChar (a b : Char) (s : String) : String :=
  ⟨s.data.map fun c => if c = a then b else c⟩

/-- JavaScript whitespace for `String.prototype.trim`. -/
def isJsWhitespace (c : Char) : Bool :=
  c = ' ' ∨ c = '\t' ∨ c = '\n' ∨ c = '\r' ∨ c = Char.ofNat 12 ∨ c = Char.ofNat 11 ∨
    c = Char.ofNat 0xA0 ∨ c = Char.ofNat 0xFEFF

/-- JavaScript `s.trim()`. -/
def jsTrim (s : String) : String :=
  ⟨((s.data.dropWhile isJsWhitespace).reverse.dropWhile isJsWhitespace).reverse⟩

/-! ### JavaScript object/value semantics used by the credential deriver -/

/-- JavaScript property access `payload.sub`-style on a parsed JSON value:
a lookup on objects (later duplicate keys win, as in `JSON.parse`),
`undefined` on every other value. -/
def jsonLookup (j : Json) (key : String) : Option Json :=
  match j with
  | Json.obj members => (members.reverse.find? (fun m => m.fst == key)).map Prod.snd
  | _ => none

/-- JavaScript truthiness of a parsed JSON value. -/
def jsTruthy : Json → Bool
  | Json.null => false
  | Json.bool b => b
  | Json.num q => q ≠ 0
  | Json.str s => s ≠ ""
  | Json.arr _ => true
  | Json.obj _ => true

mutual

/-- JavaScript `.toString()` of a parsed JSON value (numbers are rendered
from the `ℚ` model: exact for the integral values that occur here). -/
def jsToString : Json → String
  | Json.null => "null"
  | Json.bool true => "true"
  | Json.bool false => "false"
  | Json.num q => if q.den = 1 then toString q.num else toString q
  | Json.str s => s
  | Json.arr xs => String.intercalate "," (jsToStringElems xs)
  | Json.obj _ => "[object Object]"

/-- `Array.prototype.toString` element rendering: `null` becomes the
empty string, everything else its `toString`. -/
def jsToStringElems : List Json → List String
  | [] => []
  | Json.null :: xs => "" :: jsToStringElems xs
  | x :: xs => jsToString x :: jsToStringElems xs

end

/-! ### Credential Deriver (`src/services/database.ts`)

`decodeJwtPayload` and `processJwtToken` follow the refactored module's
functions of the same names; `src/services/database.ts` inlines the body
of `processJwtToken` inside `getCursorTokenFromDB` (lines 162-187) with
identical logic. -/

/-- `decodeJwtPayload(token)`: split on `.`, require exactly 3 segments,
convert the second segment from base64url to base64 (`-`→`+`, `_`→`/`),
base64-decode, UTF-8-decode, `JSON.parse`; any failure → `undefined`. -/
def decodeJwtPayload (token : String) : Option Json :=
  let parts := jsSplit '.' token
  if parts.length ≠ 3 then none
  else
    match parts.get? 1 with
    | none => none
    | some payload =>
      let base64 := replaceChar '_' '/' (replaceChar '-' '+' payload)
      jsonParse (bufferToStringUtf8 (base64DecodeBytes base64))

/-- `processJwtToken(token)`: decode the payload, require a truthy `sub`
property, split its string form on `|`, require at least 2 parts and a
truthy (non-empty) second part, and return
`` `${userId}%3A%3A${token}` ``. -/
def processJwtToken (token : String) : Option String :=
  match decodeJwtPayload token with
  | none => none
  | some payload =>
    match jsonLookup payload "sub" with
    | none => none
    | some subVal =>
      if jsTruthy subVal = false then none
      else
        let sub := jsToString subVal
        let subParts := jsSplit '|' sub
        if subParts.length < 2 then none
        else
          match subParts.get? 1 with
          | none => none
          | some userId =>
            if userId = "" then none
            else some (userId ++ "%3A%3A" ++ token)

/-! ### Token Extractor (`src/services/database.ts`)

The awaited/spawned I/O actions (`queryTokenWithCLI`, the `sql.js`
in-memory query) are supplied as an environment record: `cliResult` is
the value `queryTokenWithCLI` returns (it catches internally, so it is a
plain `Option`), `sqlJsResult` is `Except` because the in-memory path may
throw (the `memError` fallback catch). -/

/-- `LARGE_FILE_THRESHOLD_BYTES = 1.5 * 1024 * 1024 * 1024` (exact in
IEEE-754 doubles). -/
def LARGE_FILE_THRESHOLD_BYTES : Nat := 1610612736

/-- The two token-extraction strategies of `extractRawToken`. -/
inductive ExtractStrategy where
  | inMemory : ExtractStrategy
  | cli : ExtractStrategy
deriving DecidableEq

/-- The strategy branch of `extractRawToken` (and of the inline version
in `getCursorTokenFromDB`): `fileSize > LARGE_FILE_THRESHOLD_BYTES`
selects the sqlite3-CLI subprocess, otherwise the in-memory sql.js load. -/
def extractStrategy (fileSize : Nat) : ExtractStrategy :=
  if fileSize > LARGE_FILE_THRESHOLD_BYTES then ExtractStrategy.cli
  else ExtractStrategy.inMemory

/-- Results of the two query back-ends for a given database file. -/
structure DbEnv where
  cliResult : Option String
  sqlJsResult : Except String (Option String)

/-- `extractRawToken(dbPath, fileSize)`: large files go straight to the
CLI; otherwise try the in-memory path and fall back to the CLI if it
throws. -/
def extractRawToken (env : DbEnv) (fileSize : Nat) : Option String :=
  if fileSize > LARGE_FILE_THRESHOLD_BYTES then env.cliResult
  else
    match env.sqlJsResult with
    | Except.ok t => t
    | Except.error _ => env.cliResult

/-! ### Database path resolution (`src/utils/context.ts`, `getCursorDBPath`) -/

/-- The message of the error `getUserDirPath` throws when
`initializeContext` has not run. -/
def contextNotInitializedMsg : String :=
  "Context not initialized. Call initializeContext() first."

/-- `getUserDirPath()`: the module-level `userDirPath` is `undefined`
until `initializeContext` runs; a falsy value throws. -/
def getUserDirPath (userDirPath : Option String) : Except String String :=
  match userDirPath with
  | none => Except.error contextNotInitializedMsg
  | some p => if p = "" then Except.error contextNotInitializedMsg else Except.ok p

/-- Ambient platform facts consulted by `getCursorDBPath`. -/
structure SysEnv where
  platform : String
  remoteName : Option String
  appName : String
  windowsUsername : Option String

/-- `path.join` modelled as posix-style concatenation (the claims never
inspect the path text). -/
def pathJoin (segments : List String) : String :=
  String.intercalate "/" segments

/-- `getCursorDBPath()`: a non-blank custom path wins; otherwise the
platform-standard location under the context's user directory, with the
WSL redirection to the Windows profile. May throw via `getUserDirPath`. -/
def getCursorDBPath (sys : SysEnv) (userDirPath : Option String)
    (customPath : Option String) : Except String String :=
  if (match customPath with | some cp => jsTrim cp != "" | none => false) then
    Except.ok (customPath.getD "")
  else
    match getUserDirPath userDirPath with
    | Except.error e => Except.error e
    | Except.ok userDir =>
      let dbRelativePath := pathJoin ["User", "globalStorage", "state.vscdb"]
      if sys.platform = "win32" then
        Except.ok (pathJoin [userDir, dbRelativePath])
      else if sys.platform = "linux" ∧ sys.remoteName = some "wsl" then
        match sys.windowsUsername with
        | some wu =>
          if wu ≠ "" then
            Except.ok (pathJoin ["/mnt/c/Users", wu, "AppData/Roaming", sys.appName,
              dbRelativePath])
          else Except.ok (pathJoin [userDir, dbRelativePath])
        | none => Except.ok (pathJoin [userDir, dbRelativePath])
      else Except.ok (pathJoin [userDir, dbRelativePath])

/-- File-system facts consulted by `getCursorTokenFromDB`. -/
structure FileSys where
  fileExists : String → Bool
  fileSize : String → Nat

/-- `getCursorTokenFromDB()`: resolve the path, check existence, extract
the raw token by the size-selected strategy, then derive the session
credential. The enclosing `try/catch` converts every thrown error —
including the context-not-initialized error — into `undefined`, so the
whole function is `Option`-valued. -/
def getCursorTokenFromDB (sys : SysEnv) (fsys : FileSys)
    (userDirPath : Option String) (customPath : Option String)
    (env : DbEnv) : Option String :=
  match getCursorDBPath sys userDirPath customPath with
  | Except.error _ => none
  | Except.ok dbPath =>
    if fsys.fileExists dbPath = false then none
    else
      match extractRawToken env (fsys.fileSize dbPath) with
      | none => none
      | some token => processJwtToken token

/-! ### API data model (`src/services/api.ts`)

Field names are the source's interface fields (snake_case leaderboard
fields rendered in camelCase); JS numbers that only ever hold integers
(ids, cents, counts, ranks) are `Int`, acceptance ratios are `ℚ`. -/

/-- Response of `/api/dashboard/get-me` (`IGetMeResponse`). -/
structure IGetMeResponse where
  authId : String
  userId : Int
  email : String
  firstName : String
  lastName : String
  workosId : String
  teamId : Int
  createdAt : String
  isEnterpriseUser : Bool
deriving DecidableEq

/-- Leaderboard entry for tab completions (`ITabLeaderboardEntry`). -/
structure ITabLeaderboardEntry where
  email : String
  userId : Int
  totalTabAccepts : Int
  totalTabLinesAccepted : Int
  totalTabLinesSuggested : Int
  tabLineAcceptanceRatio : ℚ
  tabAcceptRatio : ℚ
  favoriteModel : String
  rank : Int
  profilePictureUrl : Option String
deriving DecidableEq

/-- Leaderboard entry for composer/agent (`IComposerLeaderboardEntry`). -/
structure IComposerLeaderboardEntry where
  email : String
  userId : Int
  totalDiffAccepts : Int
  totalComposerLinesAccepted : Int
  totalComposerLinesSuggested : Int
  composerLineAcceptanceRatio : ℚ
  favoriteModel : String
  rank : Int
  profilePictureUrl : Option String
deriving DecidableEq

/-- One composer-ranked section of `ILeaderboardData`. -/
structure ComposerSection where
  userEntry : Option IComposerLeaderboardEntry
  totalUsers : Int
deriving DecidableEq

/-- The tab-ranked section of `ILeaderboardData`. -/
structure TabSection where
  userEntry : Option ITabLeaderboardEntry
  totalUsers : Int
deriving DecidableEq

/-- Combined leaderboard data (`ILeaderboardData`). -/
structure ILeaderboardData where
  agentLines : ComposerSection
  acceptedDiffs : ComposerSection
  tabCompletions : TabSection
deriving DecidableEq

/-- Individual overall usage inside `IUsageSummaryResponse`. -/
structure IndividualOverall where
  enabled : Bool
  used : Int
  limit : Option Int
  remaining : Option Int
deriving DecidableEq

/-- One team-usage bucket (`onDemand` / `pooled`) inside
`IUsageSummaryResponse`. -/
structure TeamUsageBucket where
  enabled : Bool
  used : Int
  limit : Int
  remaining : Int
deriving DecidableEq

/-- Response of `/api/usage-summary` (`IUsageSummaryResponse`). -/
structure IUsageSummaryResponse where
  billingCycleStart : String
  billingCycleEnd : String
  membershipType : String
  limitType : String
  isUnlimited : Bool
  individualOverall : IndividualOverall
  teamOnDemand : TeamUsageBucket
  teamPooled : TeamUsageBucket
deriving DecidableEq

/-- `calculateIndividualContribution(individualUsed, pooledUsed)`:
percentage of the pooled usage contributed by the individual, defined as
0 when `pooledUsed === 0`. -/
def calculateIndividualContribution (individualUsed pooledUsed : ℚ) : ℚ :=
  if pooledUsed = 0 then 0
  else individualUsed / pooledUsed * 100

/-! ### Refresh Orchestrator (`src/extension.ts`)

The module-level mutable variables become an explicit state record; the
installed timer handle is modelled by the period of the currently
installed interval. One invocation of `refreshStats` becomes a pure step
function from the state and an environment (the results the awaited calls
would produce) to the next state plus the ordered list of calls the
invocation emits. -/

/-- Normal refresh cadence: 60 seconds. -/
def REFRESH_INTERVAL_MS : Int := 60000

/-- Fast-retry cadence: 1 second. -/
def FAST_RETRY_INTERVAL_MS : Int := 1000

/-- Maximum duration of a fast-retry episode: 60 seconds. -/
def FAST_RETRY_DURATION_MS : Int := 60000

/-- The orchestrator's module-level state (`statusBarItem` excluded: it is
renderer state). `intervalMs` is the period of the interval installed via
`setInterval`, `none` when no timer is installed. -/
structure OrchState where
  isRefreshing : Bool
  cachedUserInfo : Option IGetMeResponse
  cachedUsageData : Option IUsageSummaryResponse
  cachedLeaderboardData : Option ILeaderboardData
  fastRetryStartTime : Option Int
  intervalMs : Option Int
deriving DecidableEq

/-- JS truthiness of the `fastRetryStartTime` variable (`null` and `0`
are falsy). -/
def fastRetryActive (fastRetryStartTime : Option Int) : Bool :=
  match fastRetryStartTime with
  | some t => t != 0
  | none => false

/-- `startRefreshInterval()`: replace any installed timer by the normal
60-second interval. -/
def startRefreshInterval (s : OrchState) : OrchState :=
  { s with intervalMs := some REFRESH_INTERVAL_MS }

/-- `startFastRetry()`: if fast retry has been active for at least
`FAST_RETRY_DURATION_MS`, clear its start time and revert to the normal
interval; otherwise record the start time if not already active and
install the 1-second interval. -/
def startFastRetry (now : Int) (s : OrchState) : OrchState :=
  if fastRetryActive s.fastRetryStartTime = true ∧
      FAST_RETRY_DURATION_MS ≤ now - s.fastRetryStartTime.getD 0 then
    startRefreshInterval { s with fastRetryStartTime := none }
  else
    let s1 :=
      if fastRetryActive s.fastRetryStartTime = false then
        { s with fastRetryStartTime := some now }
      else s
    { s1 with intervalMs := some FAST_RETRY_INTERVAL_MS }

/-- `stopFastRetry()`: if fast retry is active, clear its start time and
revert to the normal interval. -/
def stopFastRetry (s : OrchState) : OrchState :=
  if fastRetryActive s.fastRetryStartTime = true then
    startRefreshInterval { s with fastRetryStartTime := none }
  else s

/-- The calls one `refreshStats` invocation emits, in order: the three
renderer callbacks, the token extraction, and the three API fetches. -/
inductive RefreshEvent where
  | showLoading : RefreshEvent
  | showError : String → RefreshEvent
  | updateStatusBar : IUsageSummaryResponse → Option ILeaderboardData →
      Option IGetMeResponse → RefreshEvent
  | callGetCursorTokenFromDB : RefreshEvent
  | callFetchUserInfo : RefreshEvent
  | callFetchUsageSummary : RefreshEvent
  | callFetchAllLeaderboards : RefreshEvent
deriving DecidableEq

/-- Results the awaited calls of one refresh cycle would yield, plus the
configuration reads and the clock. `Except.error msg` models a rejected
promise whose caught error message is `msg`. -/
structure RefreshEnv where
  now : Int
  tokenResult : Option String
  userInfoResult : Except String IGetMeResponse
  leaderboardEnabled : Bool
  usageResult : Except String IUsageSummaryResponse
  leaderboardResult : Except String ILeaderboardData

/-- The fetch phase of the `try` block after a user-info value is at
hand: issue `fetchUsageSummary` and (conditionally) the leaderboard
fetch in parallel, then cache and render, or surface the first
rejection. Third component: the message of a thrown error, to be handled
by `refreshStats`'s `catch`. -/
def refreshFetchPhase (env : RefreshEnv) (s : OrchState) (ui : IGetMeResponse)
    (evs : List RefreshEvent) : OrchState × List RefreshEvent × Option String :=
  let wantLeaderboard := env.leaderboardEnabled && ui.isEnterpriseUser && ui.teamId != 0
  let evs := evs ++ [RefreshEvent.callFetchUsageSummary] ++
    (if wantLeaderboard then [RefreshEvent.callFetchAllLeaderboards] else [])
  match env.usageResult with
  | Except.error msg => (s, evs, some msg)
  | Except.ok usageData =>
    match (if wantLeaderboard then Except.map some env.leaderboardResult
           else Except.ok none) with
    | Except.error msg => (s, evs, some msg)
    | Except.ok leaderboardData =>
      ({ s with cachedUsageData := some usageData,
                cachedLeaderboardData := leaderboardData },
       evs ++ [RefreshEvent.updateStatusBar usageData leaderboardData (some ui)],
       none)

/-- The `try` block of `refreshStats` (extension lines 96-130): extract
the token; on absence show the not-signed-in error and start fast retry;
on presence stop fast retry, take the cached user info or fetch it, then
run the fetch phase. -/
def refreshTryBlock (env : RefreshEnv) (s : OrchState) :
    OrchState × List RefreshEvent × Option String :=
  match env.tokenResult with
  | none =>
    (startFastRetry env.now s,
     [RefreshEvent.callGetCursorTokenFromDB,
      RefreshEvent.showError "Not signed in to Cursor"],
     none)
  | some _token =>
    let s1 := stopFastRetry s
    match s1.cachedUserInfo, env.userInfoResult with
    | none, Except.error msg =>
      (s1, [RefreshEvent.callGetCursorTokenFromDB, RefreshEvent.callFetchUserInfo],
       some msg)
    | none, Except.ok ui =>
      refreshFetchPhase env { s1 with cachedUserInfo := some ui } ui
        [RefreshEvent.callGetCursorTokenFromDB, RefreshEvent.callFetchUserInfo]
    | some ui, _ =>
      refreshFetchPhase env s1 ui [RefreshEvent.callGetCursorTokenFromDB]

/-- `refreshStats()`: the single-flight guard returns immediately when a
refresh is already in flight; otherwise set the busy flag, show the
loading state, run the `try` block, surface a thrown error via
`showError`, and clear the busy flag in the `finally`. -/
def refreshStats (env : RefreshEnv) (s : OrchState) :
    OrchState × List RefreshEvent :=
  if s.isRefreshing then (s, [])
  else
    let s1 := { s with isRefreshing := true }
    match refreshTryBlock env s1 with
    | (s2, evs, exn) =>
      ({ s2 with isRefreshing := false },
       RefreshEvent.showLoading :: evs ++
         (match exn with
          | some msg => [RefreshEvent.showError msg]
          | none => []))

/-! ### Renderer-callback classification (for the callback-count claims) -/

/-- Is this event one of the renderer callbacks `showLoading` /
`showError` / `updateStatusBar`? -/
def isRendererCallback : RefreshEvent → Bool
  | RefreshEvent.showLoading => true
  | RefreshEvent.showError _ => true
  | RefreshEvent.updateStatusBar _ _ _ => true
  | _ => false

/-- Is this event a terminal renderer callback (`showError` /
`updateStatusBar`)? -/
def isTerminalRendererCallback : RefreshEvent → Bool
  | RefreshEvent.showError _ => true
  | RefreshEvent.updateStatusBar _ _ _ => true
  | _ => false

/-- Is this event the `showLoading` renderer callback? -/
def isShowLoadingEvent : RefreshEvent → Bool
  | RefreshEvent.showLoading => true
  | _ => false

/-! ### Concrete sample values for witnesses and counterexamples -/

/-- A sample enterprise user. -/
def sampleUser : IGetMeResponse :=
  { authId := "auth0|u1", userId := 1, email := "dev@example.com",
    firstName := "Dev", lastName := "User", workosId := "w1", teamId := 7,
    createdAt := "2024-01-01", isEnterpriseUser := true }

/-- A sample usage summary. -/
def sampleUsage : IUsageSummaryResponse :=
  { billingCycleStart := "2024-01-01", billingCycleEnd := "2024-02-01",
    membershipType := "enterprise", limitType := "hard", isUnlimited := false,
    individualOverall := { enabled := true, used := 50, limit := some 100, remaining := some 50 },
    teamOnDemand := { enabled := false, used := 0, limit := 0, remaining := 0 },
    teamPooled := { enabled := true, used := 100, limit := 200, remaining := 100 } }

/-- A sample leaderboard result (all sections absent for the user). -/
def sampleLeaderboard : ILeaderboardData :=
  { agentLines := { userEntry := none, totalUsers := 0 },
    acceptedDiffs := { userEntry := none, totalUsers := 0 },
    tabCompletions := { userEntry := none, totalUsers := 0 } }

/-- The orchestrator state right after activation (normal interval
installed, nothing cached, idle). -/
def idleState : OrchState :=
  { isRefreshing := false, cachedUserInfo := none, cachedUsageData := none,
    cachedLeaderboardData := none, fastRetryStartTime := none,
    intervalMs := some REFRESH_INTERVAL_MS }

/-- An environment in which the token extraction finds nothing. -/
def envNoToken (now : Int) : RefreshEnv :=
  { now := now, tokenResult := none, userInfoResult := Except.ok sampleUser,
    leaderboardEnabled := true, usageResult := Except.ok sampleUsage,
    leaderboardResult := Except.ok sampleLeaderboard }

/-- An environment in which every call succeeds. -/
def envAllOk (now : Int) : RefreshEnv :=
  { now := now, tokenResult := some "tok", userInfoResult := Except.ok sampleUser,
    leaderboardEnabled := true, usageResult := Except.ok sampleUsage,
    leaderboardResult := Except.ok sampleLeaderboard }

/-- The busy state used by the single-flight witness. -/
def busyState : OrchState := { idleState with isRefreshing := true }

/-- A state in which fast retry is active since time 1. -/
def fastState : OrchState :=
  { idleState with fastRetryStartTime := some 1,
                   intervalMs := some FAST_RETRY_INTERVAL_MS }

/-- The idle state with the sample user already cached. -/
def cachedState : OrchState := { idleState with cachedUserInfo := some sampleUser }

/-- A sample platform environment (plain Linux desktop). -/
def sampleSys : SysEnv :=
  { platform := "linux", remoteName := none, appName := "Cursor",
    windowsUsername := none }

/-- A sample file system on which the database exists and is small. -/
def sampleFs : FileSys :=
  { fileExists := fun _ => true, fileSize := fun _ => 4096 }

/-- A sample database whose in-memory query yields a valid token. -/
def sampleDbEnv : DbEnv :=
  { cliResult := none,
    sqlJsResult := Except.ok (some "hdr.eyJzdWIiOiJvcmd8YWJjMTIzIn0.sig") }

/-! ### Helper lemmas about the orchestrator step functions -/

/-- `stopFastRetry` only touches the fast-retry timestamp and the timer. -/
theorem stopFastRetry_parts (s : OrchState) :
    (stopFastRetry s).isRefreshing = s.isRefreshing ∧
    (stopFastRetry s).cachedUserInfo = s.cachedUserInfo ∧
    (stopFastRetry s).cachedUsageData = s.cachedUsageData ∧
    (stopFastRetry s).cachedLeaderboardData = s.cachedLeaderboardData := by
  unfold stopFastRetry startRefreshInterval
  split <;> simp

/-- `refreshFetchPhase` never touches the busy flag, the cached user
info, the fast-retry timestamp or the timer. -/
theorem refreshFetchPhase_parts (env : RefreshEnv) (s : OrchState)
    (ui : IGetMeResponse) (evs : List RefreshEvent) :
    ((refreshFetchPhase env s ui evs).1).isRefreshing = s.isRefreshing ∧
    ((refreshFetchPhase env s ui evs).1).cachedUserInfo = s.cachedUserInfo ∧
    ((refreshFetchPhase env s ui evs).1).fastRetryStartTime = s.fastRetryStartTime ∧
    ((refreshFetchPhase env s ui evs).1).intervalMs = s.intervalMs := by
  unfold refreshFetchPhase
  rcases env.usageResult with msg | usage
  · simp
  · dsimp only
    split <;> simp

/-- On a no-credential cycle the whole invocation is `showLoading`, the
token call, the not-signed-in error, and `startFastRetry` on the state. -/
theorem refreshStats_noToken (env : RefreshEnv) (s : OrchState)
    (hbusy : s.isRefreshing = false) (htok : env.tokenResult = none) :
    refreshStats env s =
      ({ startFastRetry env.now { s with isRefreshing := true } with
          isRefreshing := false },
       [RefreshEvent.showLoading, RefreshEvent.callGetCursorTokenFromDB,
        RefreshEvent.showError "Not signed in to Cursor"]) := by
  unfold refreshStats refreshTryBlock
  simp [hbusy, htok]

/-- `startFastRetry` when fast retry is not active: record the start
time and install the 1-second interval. -/
theorem startFastRetry_inactive (now : Int) (s : OrchState)
    (h : fastRetryActive s.fastRetryStartTime = false) :
    startFastRetry now s =
      { s with fastRetryStartTime := some now,
               intervalMs := some FAST_RETRY_INTERVAL_MS } := by
  unfold startFastRetry
  simp [h]

/-- `startFastRetry` while active and within the 60-second window: keep
the start time, keep the 1-second interval. -/
theorem startFastRetry_active_within (now t : Int) (s : OrchState)
    (hs : s.fastRetryStartTime = some t) (ht : t ≠ 0)
    (hwin : now - t < FAST_RETRY_DURATION_MS) :
    startFastRetry now s =
      { s with intervalMs := some FAST_RETRY_INTERVAL_MS } := by
  unfold startFastRetry
  simp [fastRetryActive, hs, ht]
  intro h
  omega

/-- `startFastRetry` when the window is exhausted: clear the start time
and revert to the normal interval. -/
theorem startFastRetry_active_elapsed (now t : Int) (s : OrchState)
    (hs : s.fastRetryStartTime = some t) (ht : t ≠ 0)
    (hwin : FAST_RETRY_DURATION_MS ≤ now - t) :
    startFastRetry now s =
      { s with fastRetryStartTime := none,
               intervalMs := some REFRESH_INTERVAL_MS } := by
  unfold startFastRetry startRefreshInterval
  simp [fastRetryActive, hs, ht, hwin]

/-! ## Claim theorems -/

/-- Claim C9: `calculateIndividualContribution(individualUsed, pooledUsed)`
equals `individualUsed / pooledUsed * 100` whenever `pooledUsed` is
nonzero and equals exactly 0 for every `individualUsed` when
`pooledUsed = 0`; in particular the instances `(0, 100) = 0`,
`(50, 100) = 50` and `(x, 0) = 0`. -/
theorem calculateIndividualContribution_spec :
    (∀ individualUsed pooledUsed : ℚ, pooledUsed ≠ 0 →
        calculateIndividualContribution individualUsed pooledUsed
          = individualUsed / pooledUsed * 100) ∧
    (∀ x : ℚ, calculateIndividualContribution x 0 = 0) ∧
    calculateIndividualContribution 0 100 = 0 ∧
    calculateIndividualContribution 50 100 = 50 := by
  refine ⟨fun i p hp => ?_, fun x => ?_, ?_, ?_⟩
  · simp [calculateIndividualContribution, hp]
  · simp [calculateIndividualContribution]
  · norm_num [calculateIndividualContribution]
  · norm_num [calculateIndividualContribution]

/-- Witness for C9 at `individualUsed = 3`, `pooledUsed = 2`. -/
theorem calculateIndividualContribution_spec_witness :
    calculateIndividualContribution 3 2 = 3 / 2 * 100 :=
  calculateIndividualContribution_spec.1 3 2 (by norm_num)

/-- Claim C2 as stated is false at the boundary: at a file size of
exactly 1.5 GiB (1610612736 bytes) `extractRawToken` selects the
in-memory sql.js strategy (the code's branch is strict `>`), whereas the
claim requires the subprocess strategy there. -/
theorem extractStrategy_threshold_counterexample :
    extractStrategy 1610612736 = ExtractStrategy.inMemory ∧
    extractStrategy 1610612736 ≠ ExtractStrategy.cli ∧
    ¬ (1610612736 < LARGE_FILE_THRESHOLD_BYTES) ∧
    extractRawToken ⟨none, Except.ok (some "t")⟩ 1610612736 = some "t" := by
  refine ⟨rfl, by decide, by decide, rfl⟩

/-- Claim C2 amended: the in-memory strategy is chosen iff the size is
at most 1.5 GiB (so at exactly 1.5 GiB the in-memory strategy is used),
the subprocess strategy iff the size strictly exceeds 1.5 GiB; above the
threshold `extractRawToken` returns the CLI result, at or below it the
in-memory result with CLI fallback on a thrown error. -/
theorem extractStrategy_iff (s : Nat) :
    (extractStrategy s = ExtractStrategy.inMemory ↔ s ≤ LARGE_FILE_THRESHOLD_BYTES) ∧
    (extractStrategy s = ExtractStrategy.cli ↔ LARGE_FILE_THRESHOLD_BYTES < s) ∧
    (∀ env : DbEnv, LARGE_FILE_THRESHOLD_BYTES < s →
        extractRawToken env s = env.cliResult) ∧
    (∀ env : DbEnv, s ≤ LARGE_FILE_THRESHOLD_BYTES →
        extractRawToken env s =
          match env.sqlJsResult with
          | Except.ok t => t
          | Except.error _ => env.cliResult) := by
  refine ⟨?_, ?_, fun env hgt => ?_, fun env hle => ?_⟩
  · unfold extractStrategy
    by_cases h : LARGE_FILE_THRESHOLD_BYTES < s
    · simp only [gt_iff_lt, h, if_true]
      constructor
      · intro hc; exact absurd hc (by simp)
      · intro hc; omega
    · simp only [gt_iff_lt, h, if_false]
      constructor
      · intro _; omega
      · intro _; trivial
  · unfold extractStrategy
    by_cases h : LARGE_FILE_THRESHOLD_BYTES < s
    · simp [h]
    · simp only [gt_iff_lt, h, if_false]
      constructor
      · intro hc; exact absurd hc (by simp)
      · intro hc; exact hc.elim
  · unfold extractRawToken
    rw [if_pos hgt]
  · unfold extractRawToken
    rw [if_neg (by omega)]

/-- Witness for C2 (amended) at sizes 0 and one byte above the
threshold. -/
theorem extractStrategy_iff_witness :
    extractRawToken ⟨some "c", Except.ok (some "m")⟩ 1610612737 = some "c" ∧
    extractRawToken ⟨some "c", Except.ok (some "m")⟩ 1610612736 = some "m" := by
  constructor
  · exact (extractStrategy_iff 1610612737).2.2.1 ⟨some "c", Except.ok (some "m")⟩ (by decide)
  · exact (extractStrategy_iff 1610612736).2.2.2 ⟨some "c", Except.ok (some "m")⟩ (by decide)

/-- Claim C1 as stated is false on the code: a well-formed 3-segment
token whose second segment base64url-decodes to the JSON payload
`\x7b"subject": "org|abc123"\x7d` derives no credential at all — the deriver
reads the `sub` property of the payload, and a payload with only a
`subject` member fails the `!payload?.sub` check. -/
theorem subject_payload_counterexample :
    (jsSplit '.' "hdr.eyJzdWJqZWN0Ijoib3JnfGFiYzEyMyJ9.sig").length = 3 ∧
    decodeJwtPayload "hdr.eyJzdWJqZWN0Ijoib3JnfGFiYzEyMyJ9.sig"
      = some (Json.obj [("subject", Json.str "org|abc123")]) ∧
    processJwtToken "hdr.eyJzdWJqZWN0Ijoib3JnfGFiYzEyMyJ9.sig" = none ∧
    processJwtToken "hdr.eyJzdWJqZWN0Ijoib3JnfGFiYzEyMyJ9.sig"
      ≠ some ("abc123%3A%3A" ++ "hdr.eyJzdWJqZWN0Ijoib3JnfGFiYzEyMyJ9.sig") := by
  refine ⟨rfl, rfl, rfl, ?_⟩
  intro h
  simp [show processJwtToken "hdr.eyJzdWJqZWN0Ijoib3JnfGFiYzEyMyJ9.sig" = none from rfl]
    at h

/-- Claim C1 amended: for every 3-segment raw token whose second segment
base64url-decodes to the JSON payload whose (single) member is
`"sub": "org|abc123"`, the credential deriver returns exactly
`"abc123%3A%3A"` followed by the raw token. -/
theorem processJwtToken_wellFormed (token : String)
    (_h3 : (jsSplit '.' token).length = 3)
    (hp : decodeJwtPayload token
        = some (Json.obj [("sub", Json.str "org|abc123")])) :
    processJwtToken token = some ("abc123%3A%3A" ++ token) := by
  unfold processJwtToken
  rw [hp]
  rfl

/-- Witness for C1 (amended) at a concrete well-formed token. -/
theorem processJwtToken_wellFormed_witness :
    processJwtToken "hdr.eyJzdWIiOiJvcmd8YWJjMTIzIn0.sig"
      = some ("abc123%3A%3A" ++ "hdr.eyJzdWIiOiJvcmd8YWJjMTIzIn0.sig") :=
  processJwtToken_wellFormed "hdr.eyJzdWIiOiJvcmd8YWJjMTIzIn0.sig" rfl rfl

/-- Claim C5 as stated is false on the code: the token below decodes to
the payload `\x7b"sub": "a|b"\x7d`, which lacks any `subject` member (so the
claim's "payload lacking the subject field" case applies), yet the
deriver returns a credential rather than absent, because the code reads
the `sub` property. -/
theorem missing_subject_member_counterexample :
    decodeJwtPayload "hdr.eyJzdWIiOiJhfGIifQ.sig"
      = some (Json.obj [("sub", Json.str "a|b")]) ∧
    jsonLookup (Json.obj [("sub", Json.str "a|b")]) "subject" = none ∧
    processJwtToken "hdr.eyJzdWIiOiJhfGIifQ.sig"
      = some "b%3A%3Ahdr.eyJzdWIiOiJhfGIifQ.sig" :=
  ⟨rfl, rfl, rfl⟩

/-- Claim C5 amended (the payload field the deriver requires is `sub`,
not `subject`): for every token that has other than 3 dot-separated
segments, or whose second segment fails to decode/parse, or whose
payload has no `sub` member, or whose `sub` value split on `|` yields
fewer than 2 parts or an empty second part, the deriver returns absent —
and, being a total `Option`-valued function, lets no exception escape. -/
theorem processJwtToken_malformed_absent (token : String)
    (h : (jsSplit '.' token).length ≠ 3
       ∨ decodeJwtPayload token = none
       ∨ (∃ p, decodeJwtPayload token = some p ∧ jsonLookup p "sub" = none)
       ∨ (∃ p v, decodeJwtPayload token = some p ∧ jsonLookup p "sub" = some v ∧
           ((jsSplit '|' (jsToString v)).length < 2 ∨
            (jsSplit '|' (jsToString v)).get? 1 = some ""))) :
    processJwtToken token = none := by
  rcases h with h3 | hnone | ⟨p, hp, hsub⟩ | ⟨p, v, hp, hv, hcase⟩
  · have hd : decodeJwtPayload token = none := by
      unfold decodeJwtPayload
      simp [h3]
    unfold processJwtToken
    rw [hd]
  · unfold processJwtToken
    rw [hnone]
  · unfold processJwtToken
    simp only [hp, hsub]
  · unfold processJwtToken
    simp only [hp, hv]
    by_cases ht : jsTruthy v = false
    · simp [ht]
    · have ht' : jsTruthy v = true := by
        cases hb : jsTruthy v
        · exact absurd hb ht
        · rfl
      simp only [ht', Bool.true_eq_false, if_false]
      rcases hcase with hlen | hget
      · simp [hlen]
      · by_cases hlen2 : (jsSplit '|' (jsToString v)).length < 2
        · simp [hlen2]
        · simp only [hlen2, if_false]
          rw [hget]
          simp

/-- Witness for C5 (amended): a 2-segment token maps to absent. -/
theorem processJwtToken_malformed_absent_witness :
    processJwtToken "a.b" = none :=
  processJwtToken_malformed_absent "a.b" (Or.inl (by decide))

/-- Claim C8 as stated is false on the code: with the context module
uninitialized, `getUserDirPath` does throw the configuration error, but
`getCursorTokenFromDB`'s enclosing catch-all converts it into `undefined`
(absent) — the error is recovered at the extraction boundary, not
propagated to the caller as a fatal error. -/
theorem context_error_swallowed_counterexample :
    getUserDirPath none = Except.error contextNotInitializedMsg ∧
    getCursorDBPath sampleSys none none = Except.error contextNotInitializedMsg ∧
    getCursorTokenFromDB sampleSys sampleFs none none sampleDbEnv = none :=
  ⟨rfl, rfl, rfl⟩

/-- Claim C8 amended: whenever the context module is uninitialized and no
non-blank custom database path is configured, path resolution throws the
`Context not initialized` error, and `getCursorTokenFromDB` catches it
and returns absent (treating it as not-signed-in) for every platform,
file system and database content — it never propagates. -/
theorem getCursorTokenFromDB_context_error_absent (sys : SysEnv)
    (fsys : FileSys) (env : DbEnv) (customPath : Option String)
    (hcp : ∀ cp, customPath = some cp → jsTrim cp = "") :
    getCursorDBPath sys none customPath = Except.error contextNotInitializedMsg ∧
    getCursorTokenFromDB sys fsys none customPath env = none := by
  have hpath : getCursorDBPath sys none customPath
      = Except.error contextNotInitializedMsg := by
    cases customPath with
    | none =>
      unfold getCursorDBPath
      rfl
    | some cp =>
      unfold getCursorDBPath
      simp only [hcp cp rfl]
      rfl
  refine ⟨hpath, ?_⟩
  unfold getCursorTokenFromDB
  rw [hpath]

/-- Witness for C8 (amended) with no custom path configured. -/
theorem getCursorTokenFromDB_context_error_absent_witness :
    getCursorTokenFromDB sampleSys sampleFs none none sampleDbEnv = none :=
  (getCursorTokenFromDB_context_error_absent sampleSys sampleFs sampleDbEnv none
    (fun cp h => by cases h)).2

/-- Claim C4: invoking `refreshStats` while a refresh is in progress is a
no-op — the state is unchanged and no calls at all are emitted (so no
token extraction, no network calls, no renderer calls, no cache
changes); and on every guard-passing path the busy flag is false again
at exit (the `finally`), so at most one refresh is in flight. -/
theorem refreshStats_single_flight (env : RefreshEnv) (s : OrchState) :
    (s.isRefreshing = true → refreshStats env s = (s, [])) ∧
    (s.isRefreshing = false → ((refreshStats env s).1).isRefreshing = false) := by
  constructor
  · intro h
    unfold refreshStats
    simp [h]
  · intro h
    unfold refreshStats
    rcases hx : refreshTryBlock env { s with isRefreshing := true } with ⟨s2, evs, exn⟩
    simp [h, hx]

/-- Witness for C4: a busy state is left untouched with no calls; an
idle state ends with the busy flag cleared. -/
theorem refreshStats_single_flight_witness :
    refreshStats (envAllOk 5) busyState = (busyState, []) ∧
    ((refreshStats (envAllOk 5) idleState).1).isRefreshing = false :=
  ⟨(refreshStats_single_flight (envAllOk 5) busyState).1 rfl,
   (refreshStats_single_flight (envAllOk 5) idleState).2 rfl⟩

/-- `stopFastRetry` commutes with setting the busy flag. -/
theorem stopFastRetry_busy (s : OrchState) :
    stopFastRetry { s with isRefreshing := true }
      = { stopFastRetry s with isRefreshing := true } := by
  unfold stopFastRetry startRefreshInterval
  by_cases h : fastRetryActive s.fastRetryStartTime = true
  · simp [h]
  · simp [h]

/-- `stopFastRetry` on an active fast retry clears the start time and
reinstalls the normal interval. -/
theorem stopFastRetry_active (s : OrchState) (t : Int)
    (hs : s.fastRetryStartTime = some t) (ht : t ≠ 0) :
    stopFastRetry s
      = { s with fastRetryStartTime := none,
                 intervalMs := some REFRESH_INTERVAL_MS } := by
  unfold stopFastRetry startRefreshInterval fastRetryActive
  simp [hs, ht]

/-- On a credential-bearing cycle the fast-retry timestamp and the timer
end up exactly as `stopFastRetry` leaves them (nothing later in the
cycle touches them). -/
theorem refreshStats_token_state (env : RefreshEnv) (s : OrchState) (tok : String)
    (hbusy : s.isRefreshing = false) (htok : env.tokenResult = some tok) :
    ((refreshStats env s).1).fastRetryStartTime = (stopFastRetry s).fastRetryStartTime ∧
    ((refreshStats env s).1).intervalMs = (stopFastRetry s).intervalMs := by
  have hsb := stopFastRetry_busy s
  unfold refreshStats refreshTryBlock
  simp only [hbusy, htok, Bool.false_eq_true, if_false, hsb]
  rcases hui : (stopFastRetry s).cachedUserInfo with _ | ui
  · rcases henv : env.userInfoResult with msg | ui0
    · simp [hui, henv]
    · simp only [hui, henv]
      have h1 := refreshFetchPhase_parts env
        { stopFastRetry s with isRefreshing := true, cachedUserInfo := some ui0 } ui0
        [RefreshEvent.callGetCursorTokenFromDB, RefreshEvent.callFetchUserInfo]
      rcases hfp : refreshFetchPhase env
          { stopFastRetry s with isRefreshing := true, cachedUserInfo := some ui0 } ui0
          [RefreshEvent.callGetCursorTokenFromDB, RefreshEvent.callFetchUserInfo]
        with ⟨s2, evs2, exn2⟩
      rw [hfp] at h1
      simp only [hfp]
      exact ⟨by simpa using h1.2.2.1, by simpa using h1.2.2.2⟩
  · simp only [hui]
    have h1 := refreshFetchPhase_parts env
      { stopFastRetry s with isRefreshing := true, cachedUserInfo := some ui } ui
      [RefreshEvent.callGetCursorTokenFromDB]
    rcases hfp : refreshFetchPhase env
        { stopFastRetry s with isRefreshing := true, cachedUserInfo := some ui } ui
        [RefreshEvent.callGetCursorTokenFromDB]
      with ⟨s2, evs2, exn2⟩
    rw [hfp] at h1
    simp only [hfp]
    exact ⟨by simpa using h1.2.2.1, by simpa using h1.2.2.2⟩

/-- Claim C3: on a guard-passing refresh cycle, (a) finding no credential
with fast retry inactive enters fast retry recording the start time and
installing the 1-second cadence; (b) finding no credential with fast
retry active and strictly inside the 60-second window keeps the start
time and the 1-second cadence; (c) finding no credential after fast
retry has been active for at least 60 seconds instead clears the start
time and reverts to the normal 60-second cadence even though still
failing; (d) obtaining a credential while fast retry is active cancels
it immediately and resumes the normal cadence. -/
theorem refreshStats_retry_state_machine (env : RefreshEnv) (s : OrchState)
    (hbusy : s.isRefreshing = false) :
    (env.tokenResult = none → s.fastRetryStartTime = none →
      ((refreshStats env s).1).fastRetryStartTime = some env.now ∧
      ((refreshStats env s).1).intervalMs = some FAST_RETRY_INTERVAL_MS) ∧
    (∀ t : Int, env.tokenResult = none → s.fastRetryStartTime = some t → t ≠ 0 →
      env.now - t < FAST_RETRY_DURATION_MS →
      ((refreshStats env s).1).fastRetryStartTime = some t ∧
      ((refreshStats env s).1).intervalMs = some FAST_RETRY_INTERVAL_MS) ∧
    (∀ t : Int, env.tokenResult = none → s.fastRetryStartTime = some t → t ≠ 0 →
      FAST_RETRY_DURATION_MS ≤ env.now - t →
      ((refreshStats env s).1).fastRetryStartTime = none ∧
      ((refreshStats env s).1).intervalMs = some REFRESH_INTERVAL_MS) ∧
    (∀ (tok : String) (t : Int), env.tokenResult = some tok →
      s.fastRetryStartTime = some t → t ≠ 0 →
      ((refreshStats env s).1).fastRetryStartTime = none ∧
      ((refreshStats env s).1).intervalMs = some REFRESH_INTERVAL_MS) := by
  refine ⟨?_, ?_, ?_, ?_⟩
  · intro htok hs
    rw [refreshStats_noToken env s hbusy htok]
    rw [startFastRetry_inactive env.now { s with isRefreshing := true }
      (by simp [fastRetryActive, hs])]
    exact ⟨rfl, rfl⟩
  · intro t htok hs ht hwin
    rw [refreshStats_noToken env s hbusy htok]
    rw [startFastRetry_active_within env.now t { s with isRefreshing := true }
      (by simp [hs]) ht hwin]
    exact ⟨hs, rfl⟩
  · intro t htok hs ht hwin
    rw [refreshStats_noToken env s hbusy htok]
    rw [startFastRetry_active_elapsed env.now t { s with isRefreshing := true }
      (by simp [hs]) ht hwin]
    exact ⟨rfl, rfl⟩
  · intro tok t htok hs ht
    have hts := refreshStats_token_state env s tok hbusy htok
    have hsa := stopFastRetry_active s t hs ht
    exact ⟨by rw [hts.1, hsa], by rw [hts.2, hsa]⟩

/-- Witness for C3: all four transitions at concrete states and clocks
(fresh entry at clock 5; retry within the window at clock 100 from start
1; forced reversion at clock 70001 from start 1; cancellation on a
credential at clock 5 from start 1). -/
theorem refreshStats_retry_state_machine_witness :
    ((refreshStats (envNoToken 5) idleState).1.fastRetryStartTime = some 5 ∧
     (refreshStats (envNoToken 5) idleState).1.intervalMs = some FAST_RETRY_INTERVAL_MS) ∧
    ((refreshStats (envNoToken 100) fastState).1.fastRetryStartTime = some 1 ∧
     (refreshStats (envNoToken 100) fastState).1.intervalMs = some FAST_RETRY_INTERVAL_MS) ∧
    ((refreshStats (envNoToken 70001) fastState).1.fastRetryStartTime = none ∧
     (refreshStats (envNoToken 70001) fastState).1.intervalMs = some REFRESH_INTERVAL_MS) ∧
    ((refreshStats (envAllOk 5) fastState).1.fastRetryStartTime = none ∧
     (refreshStats (envAllOk 5) fastState).1.intervalMs = some REFRESH_INTERVAL_MS) :=
  ⟨(refreshStats_retry_state_machine (envNoToken 5) idleState rfl).1 rfl rfl,
   (refreshStats_retry_state_machine (envNoToken 100) fastState rfl).2.1 1 rfl rfl
     (by decide) (by decide),
   (refreshStats_retry_state_machine (envNoToken 70001) fastState rfl).2.2.1 1 rfl rfl
     (by decide) (by decide),
   (refreshStats_retry_state_machine (envAllOk 5) fastState rfl).2.2.2 "tok" 1 rfl rfl
     (by decide)⟩

/-- Claim C10: when the 60-second bound forces fast retry back to the
normal cadence, the start timestamp is cleared, so the very next
guard-passing refresh that again finds no credential re-enters fast
retry with a fresh window anchored at that cycle's clock — the bound
limits each episode, not the total amount of 1-second polling. -/
theorem fastRetry_window_resets (env1 env2 : RefreshEnv) (s : OrchState) (t : Int)
    (hbusy : s.isRefreshing = false)
    (hs : s.fastRetryStartTime = some t) (ht : t ≠ 0)
    (htok1 : env1.tokenResult = none)
    (helapsed : FAST_RETRY_DURATION_MS ≤ env1.now - t)
    (htok2 : env2.tokenResult = none) :
    ((refreshStats env1 s).1.fastRetryStartTime = none ∧
     (refreshStats env1 s).1.intervalMs = some REFRESH_INTERVAL_MS) ∧
    ((refreshStats env2 (refreshStats env1 s).1).1.fastRetryStartTime = some env2.now ∧
     (refreshStats env2 (refreshStats env1 s).1).1.intervalMs
       = some FAST_RETRY_INTERVAL_MS) := by
  have h1 : (refreshStats env1 s).1 = { s with isRefreshing := false, fastRetryStartTime := none, intervalMs := some REFRESH_INTERVAL_MS } := by
    rw [refreshStats_noToken env1 s hbusy htok1]
    rw [startFastRetry_active_elapsed env1.now t { s with isRefreshing := true }
      (by simp [hs]) ht helapsed]
  rw [h1]
  refine ⟨⟨rfl, rfl⟩, ?_⟩
  rw [refreshStats_noToken env2 _ rfl htok2]
  rw [startFastRetry_inactive env2.now _ (by simp [fastRetryActive])]
  exact ⟨rfl, rfl⟩

/-- Witness for C10: reversion at clock 70001 from start 1, then
re-entry at clock 70002. -/
theorem fastRetry_window_resets_witness :
    ((refreshStats (envNoToken 70001) fastState).1.fastRetryStartTime = none ∧
     (refreshStats (envNoToken 70001) fastState).1.intervalMs = some REFRESH_INTERVAL_MS) ∧
    ((refreshStats (envNoToken 70002)
        (refreshStats (envNoToken 70001) fastState).1).1.fastRetryStartTime = some 70002 ∧
     (refreshStats (envNoToken 70002)
        (refreshStats (envNoToken 70001) fastState).1).1.intervalMs
       = some FAST_RETRY_INTERVAL_MS) :=
  fastRetry_window_resets (envNoToken 70001) (envNoToken 70002) fastState 1
    rfl rfl (by decide) rfl (by decide) rfl

/-- Shape of the calls emitted by the fetch phase: the incoming prefix,
the usage fetch, the conditional leaderboard fetch, then either a single
`updateStatusBar` with no exception or no further event and an
exception message. -/
theorem refreshFetchPhase_events (env : RefreshEnv) (s : OrchState)
    (ui : IGetMeResponse) (evs : List RefreshEvent) :
    ∃ tail : List RefreshEvent,
      (refreshFetchPhase env s ui evs).2.1 =
        evs ++ [RefreshEvent.callFetchUsageSummary] ++
          (if env.leaderboardEnabled && ui.isEnterpriseUser && ui.teamId != 0
           then [RefreshEvent.callFetchAllLeaderboards] else []) ++ tail ∧
      ((∃ u l o, tail = [RefreshEvent.updateStatusBar u l o] ∧
          (refreshFetchPhase env s ui evs).2.2 = none) ∨
       (tail = [] ∧ ∃ msg, (refreshFetchPhase env s ui evs).2.2 = some msg)) := by
  unfold refreshFetchPhase
  rcases hus : env.usageResult with msg | usage
  · refine ⟨[], by simp, Or.inr ⟨rfl, msg, rfl⟩⟩
  · dsimp only
    rcases hlb : (if env.leaderboardEnabled && ui.isEnterpriseUser && ui.teamId != 0
        then Except.map some env.leaderboardResult else Except.ok none) with msg | lb
    · simp only [hlb]
      exact ⟨[], by simp, Or.inr ⟨rfl, msg, rfl⟩⟩
    · simp only [hlb]
      exact ⟨[RefreshEvent.updateStatusBar usage lb (some ui)], by simp,
        Or.inl ⟨usage, lb, some ui, rfl, by trivial⟩⟩

/-- Counts of renderer callbacks contributed by the fetch phase plus the
`showError` the enclosing `catch` would add: no `showLoading`, exactly
one terminal callback. -/
theorem refreshFetchPhase_counts (env : RefreshEnv) (s : OrchState)
    (ui : IGetMeResponse) (evs : List RefreshEvent)
    (h1 : evs.countP isShowLoadingEvent = 0)
    (h2 : evs.countP isTerminalRendererCallback = 0)
    (h3 : evs.countP isRendererCallback = 0) :
    ((refreshFetchPhase env s ui evs).2.1 ++
      (match (refreshFetchPhase env s ui evs).2.2 with
       | some msg => [RefreshEvent.showError msg]
       | none => [])).countP isShowLoadingEvent = 0 ∧
    ((refreshFetchPhase env s ui evs).2.1 ++
      (match (refreshFetchPhase env s ui evs).2.2 with
       | some msg => [RefreshEvent.showError msg]
       | none => [])).countP isTerminalRendererCallback = 1 ∧
    ((refreshFetchPhase env s ui evs).2.1 ++
      (match (refreshFetchPhase env s ui evs).2.2 with
       | some msg => [RefreshEvent.showError msg]
       | none => [])).countP isRendererCallback = 1 := by
  obtain ⟨tail, htail, hcase⟩ := refreshFetchPhase_events env s ui evs
  by_cases hw : (env.leaderboardEnabled && ui.isEnterpriseUser && ui.teamId != 0) = true
  · rcases hcase with ⟨u, l, o, htl, hexn⟩ | ⟨htl, msg, hexn⟩ <;>
      subst htl <;>
      simp [htail, hexn, hw, List.countP_append, List.countP_cons, h1, h2, h3,
        isShowLoadingEvent, isTerminalRendererCallback, isRendererCallback]
  · rcases hcase with ⟨u, l, o, htl, hexn⟩ | ⟨htl, msg, hexn⟩ <;>
      subst htl <;>
      simp [htail, hexn, hw, List.countP_append, List.countP_cons, h1, h2, h3,
        isShowLoadingEvent, isTerminalRendererCallback, isRendererCallback]

/-- Claim C6: once the user info is cached, a credential-bearing
guard-passing cycle never calls `fetchUserInfo` again, while
`fetchUsageSummary` is issued on that cycle, and `fetchAllLeaderboards`
is issued whenever the leaderboard conditions (enabled, enterprise user,
truthy team id) hold. -/
theorem refreshStats_userInfo_cache_stable (env : RefreshEnv) (s : OrchState)
    (tok : String) (ui : IGetMeResponse)
    (hbusy : s.isRefreshing = false)
    (htok : env.tokenResult = some tok)
    (hui : s.cachedUserInfo = some ui) :
    RefreshEvent.callFetchUserInfo ∉ (refreshStats env s).2 ∧
    RefreshEvent.callFetchUsageSummary ∈ (refreshStats env s).2 ∧
    (env.leaderboardEnabled = true → ui.isEnterpriseUser = true → ui.teamId ≠ 0 →
      RefreshEvent.callFetchAllLeaderboards ∈ (refreshStats env s).2) := by
  unfold refreshStats refreshTryBlock
  simp only [hbusy, Bool.false_eq_true, if_false, htok, stopFastRetry_busy s]
  have hcui : (stopFastRetry s).cachedUserInfo = some ui := by
    rw [(stopFastRetry_parts s).2.1, hui]
  simp only [hcui]
  obtain ⟨tail, htail, hcase⟩ := refreshFetchPhase_events env
    { stopFastRetry s with isRefreshing := true, cachedUserInfo := some ui } ui
    [RefreshEvent.callGetCursorTokenFromDB]
  rcases hfp : refreshFetchPhase env
      { stopFastRetry s with isRefreshing := true, cachedUserInfo := some ui } ui
      [RefreshEvent.callGetCursorTokenFromDB] with ⟨s2, evs2, exn2⟩
  rw [hfp] at htail hcase
  dsimp only at htail hcase
  simp only [hfp]
  rcases hcase with ⟨u, l, o, htl, hexn⟩ | ⟨htl, msg, hexn⟩ <;> subst htl <;> subst hexn
  · refine ⟨?_, ?_, fun hEn hEnt hTeam => ?_⟩
    · by_cases hw : (env.leaderboardEnabled && ui.isEnterpriseUser && ui.teamId != 0) = true <;>
        simp [htail, hw]
    · by_cases hw : (env.leaderboardEnabled && ui.isEnterpriseUser && ui.teamId != 0) = true <;>
        simp [htail, hw]
    · have hw : (env.leaderboardEnabled && ui.isEnterpriseUser && ui.teamId != 0) = true := by
        simp [hEn, hEnt, hTeam]
      simp [htail, hw]
  · refine ⟨?_, ?_, fun hEn hEnt hTeam => ?_⟩
    · by_cases hw : (env.leaderboardEnabled && ui.isEnterpriseUser && ui.teamId != 0) = true <;>
        simp [htail, hw]
    · by_cases hw : (env.leaderboardEnabled && ui.isEnterpriseUser && ui.teamId != 0) = true <;>
        simp [htail, hw]
    · have hw : (env.leaderboardEnabled && ui.isEnterpriseUser && ui.teamId != 0) = true := by
        simp [hEn, hEnt, hTeam]
      simp [htail, hw]

/-- Witness for C6 with the sample user cached and every call
succeeding. -/
theorem refreshStats_userInfo_cache_stable_witness :
    RefreshEvent.callFetchUserInfo ∉ (refreshStats (envAllOk 5) cachedState).2 ∧
    RefreshEvent.callFetchUsageSummary ∈ (refreshStats (envAllOk 5) cachedState).2 ∧
    RefreshEvent.callFetchAllLeaderboards ∈ (refreshStats (envAllOk 5) cachedState).2 := by
  have h := refreshStats_userInfo_cache_stable (envAllOk 5) cachedState "tok" sampleUser
    rfl rfl rfl
  exact ⟨h.1, h.2.1, h.2.2 rfl rfl (by decide)⟩

/-- Claim C7 as stated is false on the code: on a guard-passing cycle
the core first calls `showLoading()` and then additionally exactly one
of `showError` / `updateStatusBar`, so two renderer callbacks occur, not
exactly one (here: the not-signed-in cycle at clock 5 from the idle
state). -/
theorem renderer_callback_count_counterexample :
    idleState.isRefreshing = false ∧
    (refreshStats (envNoToken 5) idleState).2.countP isRendererCallback = 2 ∧
    (refreshStats (envNoToken 5) idleState).2.countP isRendererCallback ≠ 1 := by
  refine ⟨rfl, rfl, by decide⟩

/-- Claim C7 amended: every guard-passing refresh cycle calls
`showLoading` exactly once and exactly one of the terminal renderer
callbacks `showError` / `updateStatusBar` — hence exactly two renderer
callbacks in total, not one. -/
theorem refreshStats_renderer_callbacks (env : RefreshEnv) (s : OrchState)
    (hbusy : s.isRefreshing = false) :
    (refreshStats env s).2.countP isShowLoadingEvent = 1 ∧
    (refreshStats env s).2.countP isTerminalRendererCallback = 1 ∧
    (refreshStats env s).2.countP isRendererCallback = 2 := by
  rcases htok : env.tokenResult with _ | tok
  · rw [refreshStats_noToken env s hbusy htok]
    exact ⟨rfl, rfl, rfl⟩
  · unfold refreshStats refreshTryBlock
    simp only [hbusy, Bool.false_eq_true, if_false, htok, stopFastRetry_busy s]
    rcases hui : (stopFastRetry s).cachedUserInfo with _ | ui
    · rcases henv : env.userInfoResult with msg | ui0
      · simp only [hui, henv]
        exact ⟨rfl, rfl, rfl⟩
      · simp only [hui, henv]
        have hc := refreshFetchPhase_counts env
          { stopFastRetry s with isRefreshing := true, cachedUserInfo := some ui0 } ui0
          [RefreshEvent.callGetCursorTokenFromDB, RefreshEvent.callFetchUserInfo]
          rfl rfl rfl
        rcases hfp : refreshFetchPhase env
            { stopFastRetry s with isRefreshing := true, cachedUserInfo := some ui0 } ui0
            [RefreshEvent.callGetCursorTokenFromDB, RefreshEvent.callFetchUserInfo]
          with ⟨s2, evs2, exn2⟩
        rw [hfp] at hc
        dsimp only at hc
        simp only [hfp]
        refine ⟨?_, ?_, ?_⟩ <;>
          simp [List.countP_cons, hc.1, hc.2.1, hc.2.2,
            isShowLoadingEvent, isTerminalRendererCallback, isRendererCallback]
    · simp only [hui]
      have hc := refreshFetchPhase_counts env
        { stopFastRetry s with isRefreshing := true, cachedUserInfo := some ui } ui
        [RefreshEvent.callGetCursorTokenFromDB]
        rfl rfl rfl
      rcases hfp : refreshFetchPhase env
          { stopFastRetry s with isRefreshing := true, cachedUserInfo := some ui } ui
          [RefreshEvent.callGetCursorTokenFromDB]
        with ⟨s2, evs2, exn2⟩
      rw [hfp] at hc
      dsimp only at hc
      simp only [hfp]
      refine ⟨?_, ?_, ?_⟩ <;>
        simp [List.countP_cons, hc.1, hc.2.1, hc.2.2,
          isShowLoadingEvent, isTerminalRendererCallback, isRendererCallback]

/-- Witness for C7 (amended) on the all-success cycle at clock 5. -/
theorem refreshStats_renderer_callbacks_witness :
    (refreshStats (envAllOk 5) idleState).2.countP isShowLoadingEvent = 1 ∧
    (refreshStats (envAllOk 5) idleState).2.countP isTerminalRendererCallback = 1 ∧
    (refreshStats (envAllOk 5) idleState).2.countP isRendererCallback = 2 :=
  refreshStats_renderer_callbacks (envAllOk 5) idleState rfl
